import Mathlib

/-!
# asus-armoury: firmware attribute store/show paths

A shallow embedding of `asus-armoury.c`.  The driver is glue between sysfs
and the ASUS WMI layer, so the embedding threads an explicit `World` through
every function: the driver globals (`asus_armoury`, `fw_attrs`), the ordered
history of WMI calls issued so far, and the sysfs side effects.

Everything the driver calls but does not define (the string parsers, the WMI
entry points, the sysfs/class registration helpers, DMI lookups) is a field
of `Kernel`.  The answer of a WMI entry point may depend on the whole call
history, which covers any deterministic firmware.  The device ids and bit
masks that live in the WMI header are the fields of `WmiIds`.

Logging (`pr_err`, `pr_warn`, `pr_debug`) has no effect on the modelled state
and is left out.
-/

namespace AsusArmoury

/-! ## Constants -/

/-- Linux errno numbers (errno-base.h); the driver returns them negated. -/
def EIO : Int := 5
/-- Out of memory. -/
def ENOMEM : Int := 12
/-- No such device. -/
def ENODEV : Int := 19
/-- Invalid argument. -/
def EINVAL : Int := 22
/-- Result out of range. -/
def ERANGE : Int := 34

def ASUS_MINI_LED_MODE_MASK : Nat := 0x03
def ASUS_MINI_LED_OFF : Nat := 0x00
def ASUS_MINI_LED_ON : Nat := 0x01
def ASUS_MINI_LED_STRONG_MODE : Nat := 0x02
def ASUS_MINI_LED_2024_WEAK : Nat := 0x00
def ASUS_MINI_LED_2024_STRONG : Nat := 0x01
def ASUS_MINI_LED_2024_OFF : Nat := 0x02

def PPT_CPU_LIMIT_MIN : Nat := 5
def PPT_CPU_LIMIT_MAX : Nat := 150
def PPT_CPU_LIMIT_DEFAULT : Nat := 80
def PPT_PLATFORM_MIN : Nat := 5
def PPT_PLATFORM_MAX : Nat := 100
def PPT_PLATFORM_DEFAULT : Nat := 80
def NVIDIA_BOOST_MIN : Nat := 5
def NVIDIA_BOOST_MAX : Nat := 25
def NVIDIA_TEMP_MIN : Nat := 75
def NVIDIA_TEMP_MAX : Nat := 87
def NVIDIA_POWER_MIN : Nat := 0
def NVIDIA_POWER_MAX : Nat := 70
def NVIDIA_POWER_DEFAULT : Nat := 70

/-- Storage of a value in a `u32` object. -/
def u32 (n : Nat) : Nat := n % 2 ^ 32

/-- Reading the 32 bits of a `u32` object as an `int` (two's complement). -/
def s32 (n : Nat) : Int := if u32 n < 2 ^ 31 then (u32 n : Int) else (u32 n : Int) - 2 ^ 32

/-- Identifiers defined by the WMI header, which the driver only names. -/
structure WmiIds where
  ASUS_WMI_METHODID_DSTS : Nat
  ASUS_WMI_DSTS_PRESENCE_BIT : Nat
  ASUS_WMI_DEVID_MINI_LED_MODE : Nat
  ASUS_WMI_DEVID_MINI_LED_MODE2 : Nat
  ASUS_WMI_DEVID_GPU_MUX : Nat
  ASUS_WMI_DEVID_GPU_MUX_VIVO : Nat
  ASUS_WMI_DEVID_DGPU : Nat
  ASUS_WMI_DEVID_EGPU : Nat
  ASUS_WMI_DEVID_EGPU_CONNECTED : Nat
  ASUS_WMI_DEVID_PPT_PL1_SPL : Nat
  ASUS_WMI_DEVID_PPT_PL2_SPPT : Nat
  ASUS_WMI_DEVID_PPT_APU_SPPT : Nat
  ASUS_WMI_DEVID_PPT_PLAT_SPPT : Nat
  ASUS_WMI_DEVID_PPT_FPPT : Nat
  ASUS_WMI_DEVID_NV_DYN_BOOST : Nat
  ASUS_WMI_DEVID_NV_THERM_TARGET : Nat
  ASUS_WMI_DEVID_DGPU_BASE_TGP : Nat
  ASUS_WMI_DEVID_DGPU_SET_TGP : Nat
  ASUS_WMI_DEVID_CHARGE_MODE : Nat
  ASUS_WMI_DEVID_BOOT_SOUND : Nat
  ASUS_WMI_DEVID_MCU_POWERSAVE : Nat
  ASUS_WMI_DEVID_PANEL_OD : Nat
  ASUS_WMI_DEVID_PANEL_HD : Nat

/-! ## Data model -/

/-- Tunables provided by ASUS for gaming laptops (`struct rog_tunables`). -/
structure rog_tunables where
  cpu_default : Nat
  cpu_min : Nat
  cpu_max : Nat
  platform_default : Nat
  platform_min : Nat
  platform_max : Nat
  ppt_pl1_spl : Nat
  ppt_pl2_sppt : Nat
  ppt_apu_sppt : Nat
  ppt_platform_sppt : Nat
  ppt_fppt : Nat
  nv_boost_default : Nat
  nv_boost_min : Nat
  nv_boost_max : Nat
  nv_dynamic_boost : Nat
  nv_temp_default : Nat
  nv_temp_min : Nat
  nv_temp_max : Nat
  nv_temp_target : Nat
  dgpu_tgp_default : Nat
  dgpu_tgp_min : Nat
  dgpu_tgp_max : Nat
  dgpu_tgp : Nat
  deriving DecidableEq, Repr

/-- The driver's `struct asus_armoury_priv`, without the kernel object handles. -/
structure asus_armoury_priv where
  rog_tunables : Option rog_tunables
  mini_led_dev_id : Nat
  gpu_mux_dev_id : Nat
  deriving DecidableEq, Repr

/-- The driver's `struct fw_attrs_group`. -/
structure fw_attrs_group where
  pending_reboot : Bool
  deriving DecidableEq, Repr

/-- One call into the WMI layer. -/
inductive WmiCall where
  | evaluate_method (method_id arg0 arg1 : Nat)
  | set_devstate (dev_id ctrl_param : Nat)
  | get_devstate_dsts (dev_id : Nat)
  deriving DecidableEq, Repr

/-- What a WMI entry point hands back: its `int` status and the `u32` it wrote. -/
structure WmiAnswer where
  err : Int
  retval : Nat
  deriving DecidableEq, Repr

/-- What `kstrtouint` / `kstrtou32` hand back: the status and the parsed number. -/
structure Parsed where
  err : Int
  value : Nat
  deriving DecidableEq, Repr

/-- What `device_create` hands back. -/
inductive DevPtr where
  | null
  | err_ptr (e : Int)
  | valid
  deriving DecidableEq, Repr

/-- The facilities of the host kernel that the driver calls. -/
structure Kernel where
  kstrtouint : String → Nat → Parsed
  kstrtou32 : String → Nat → Parsed
  wmi : List WmiCall → WmiCall → WmiAnswer
  fw_attributes_class_get : Int
  device_create : DevPtr
  sysfs_create_file : Int
  sysfs_create_group : String → Int
  dmi_check_system_rog_ally : Bool
  dmi_product_name : String
  kzalloc_ok : Bool

/-- Everything a driver function can read or change. -/
structure World where
  asus_armoury : asus_armoury_priv
  fw_attrs : fw_attrs_group
  calls : List WmiCall
  notified : List String
  uevents : Nat
  groups : List String
  deriving DecidableEq, Repr

/-- The `kobj_attribute` argument; only `attr->attr.name` is ever read. -/
structure kobj_attribute where
  name : String
  deriving DecidableEq, Repr

/-- Status, out-parameter and world after one WMI call. -/
structure WmiResult where
  err : Int
  retval : Nat
  world : World

/-- Return value and world after a store or a probe. -/
structure StoreResult where
  ret : Int
  world : World

/-- Return value, the cell behind `store_value`, and world after `attr_int_store`. -/
structure AttrIntResult where
  ret : Int
  store_value : Option Nat
  world : World

/-- Return value, buffer contents (when written) and world after a show. -/
structure ShowResult where
  ret : Int
  buf : Option String
  world : World

/-! ## Calls into the kernel -/

def kstrtouint (k : Kernel) (buf : String) (base : Nat) : Parsed :=
  ⟨(k.kstrtouint buf base).err, u32 (k.kstrtouint buf base).value⟩

def kstrtou32 (k : Kernel) (buf : String) (base : Nat) : Parsed :=
  ⟨(k.kstrtou32 buf base).err, u32 (k.kstrtou32 buf base).value⟩

/-- Issue one WMI call: ask the firmware, then append the call to the history. -/
def wmi_call (k : Kernel) (w : World) (c : WmiCall) : WmiResult :=
  ⟨(k.wmi w.calls c).err, u32 (k.wmi w.calls c).retval, { w with calls := w.calls ++ [c] }⟩

def asus_wmi_evaluate_method (k : Kernel) (w : World) (method_id arg0 arg1 : Nat) : WmiResult :=
  wmi_call k w (.evaluate_method method_id arg0 arg1)

def asus_wmi_set_devstate (k : Kernel) (w : World) (dev_id ctrl_param : Nat) : WmiResult :=
  wmi_call k w (.set_devstate dev_id ctrl_param)

def asus_wmi_get_devstate_dsts (k : Kernel) (w : World) (dev_id : Nat) : WmiResult :=
  wmi_call k w (.get_devstate_dsts dev_id)

def sysfs_notify (w : World) (name : String) : World :=
  { w with notified := w.notified ++ [name] }

/-- Writes `s` to the buffer and returns the number of bytes written. -/
def sysfs_emit (w : World) (s : String) : ShowResult :=
  ⟨(s.length : Int), some s, w⟩

/-- Registers a group; it exists afterwards when the kernel reports success. -/
def sysfs_create_group (k : Kernel) (w : World) (name : String) : Int × World :=
  (k.sysfs_create_group name,
    if k.sysfs_create_group name = 0 then { w with groups := w.groups ++ [name] } else w)

/-- Whether `needle` occurs in `haystack`, that is whether C `strstr` is non-NULL. -/
def strstr : List Char → List Char → Bool
  | [], needle => needle.isEmpty
  | c :: cs, needle => List.isPrefixOf needle (c :: cs) || strstr cs needle

/-- The `set_devstate` calls of a history, in order. -/
def set_devstate_calls : List WmiCall → List (Nat × Nat)
  | [] => []
  | .set_devstate d v :: cs => (d, v) :: set_devstate_calls cs
  | _ :: cs => set_devstate_calls cs

/-! ## The driver -/

def asus_wmi_is_present (ids : WmiIds) (k : Kernel) (w : World) (dev_id : Nat) : Bool × World :=
  let r := asus_wmi_evaluate_method k w ids.ASUS_WMI_METHODID_DSTS dev_id 0
  (r.err == 0 && (r.retval &&& ids.ASUS_WMI_DSTS_PRESENCE_BIT) != 0, r.world)

def asus_set_reboot_and_signal_event (w : World) : World :=
  { w with fw_attrs := { w.fw_attrs with pending_reboot := true }, uevents := w.uevents + 1 }

def asus_bios_requires_reboot (attr : kobj_attribute) : Bool :=
  attr.name == "gpu_mux_mode" || attr.name == "panel_hd_mode"

def attr_int_store (k : Kernel) (w : World) (attr : kobj_attribute) (buf : String) (count : Nat)
    (min max : Nat) (store_value : Option Nat) (wmi_dev : Nat) : AttrIntResult :=
  let p := kstrtouint k buf 10
  if p.err ≠ 0 then ⟨p.err, store_value, w⟩
  else if p.value < min ∨ p.value > max then ⟨-EINVAL, store_value, w⟩
  else
    let r := asus_wmi_set_devstate k w wmi_dev p.value
    if r.err ≠ 0 then ⟨r.err, store_value, r.world⟩
    else if r.retval ≠ 1 then ⟨- EIO, store_value, r.world⟩
    else
      let stored := match store_value with
        | none => none
        | some _ => some p.value
      let w1 := sysfs_notify r.world attr.name
      let w2 := if asus_bios_requires_reboot attr then asus_set_reboot_and_signal_event w1 else w1
      ⟨(count : Int), stored, w2⟩

/-! ### Mini-LED mode -/

def mini_led_mode_current_value_show (ids : WmiIds) (k : Kernel) (w : World) : ShowResult :=
  let r := asus_wmi_get_devstate_dsts k w w.asus_armoury.mini_led_dev_id
  if r.err ≠ 0 then ⟨r.err, none, r.world⟩
  else
    let value := r.retval &&& ASUS_MINI_LED_MODE_MASK
    let shown :=
      if w.asus_armoury.mini_led_dev_id = ids.ASUS_WMI_DEVID_MINI_LED_MODE2 then
        if value = ASUS_MINI_LED_2024_WEAK then ASUS_MINI_LED_ON
        else if value = ASUS_MINI_LED_2024_STRONG then ASUS_MINI_LED_STRONG_MODE
        else if value = ASUS_MINI_LED_2024_OFF then ASUS_MINI_LED_OFF
        else value
      else value
    sysfs_emit r.world (toString shown ++ "\n")

def mini_led_mode_current_value_store (ids : WmiIds) (k : Kernel) (w : World)
    (attr : kobj_attribute) (buf : String) (count : Nat) : StoreResult :=
  let p := kstrtou32 k buf 10
  if p.err ≠ 0 then ⟨p.err, w⟩
  else if w.asus_armoury.mini_led_dev_id = ids.ASUS_WMI_DEVID_MINI_LED_MODE ∧
      p.value > ASUS_MINI_LED_ON then ⟨-EINVAL, w⟩
  else if w.asus_armoury.mini_led_dev_id = ids.ASUS_WMI_DEVID_MINI_LED_MODE2 ∧
      p.value > ASUS_MINI_LED_STRONG_MODE then ⟨-EINVAL, w⟩
  else
    let mode :=
      if w.asus_armoury.mini_led_dev_id = ids.ASUS_WMI_DEVID_MINI_LED_MODE2 then
        if p.value = ASUS_MINI_LED_OFF then ASUS_MINI_LED_2024_OFF
        else if p.value = ASUS_MINI_LED_ON then ASUS_MINI_LED_2024_WEAK
        else if p.value = ASUS_MINI_LED_STRONG_MODE then ASUS_MINI_LED_2024_STRONG
        else p.value
      else p.value
    let r := asus_wmi_set_devstate k w w.asus_armoury.mini_led_dev_id mode
    if r.err ≠ 0 then ⟨r.err, r.world⟩
    else if r.retval ≠ 1 then ⟨- EIO, r.world⟩
    else ⟨(count : Int), sysfs_notify r.world attr.name⟩

def mini_led_mode_possible_values_show (ids : WmiIds) (w : World) : ShowResult :=
  if w.asus_armoury.mini_led_dev_id = ids.ASUS_WMI_DEVID_MINI_LED_MODE then
    sysfs_emit w "0;1\n"
  else if w.asus_armoury.mini_led_dev_id = ids.ASUS_WMI_DEVID_MINI_LED_MODE2 then
    sysfs_emit w "0;1;2\n"
  else sysfs_emit w "0\n"

/-! ### GPU MUX mode -/

/-- The end of `gpu_mux_mode_current_value_store`, from its `asus_wmi_set_devstate` call on. -/
def gpu_mux_mode_set (k : Kernel) (w : World) (attr : kobj_attribute) (count : Nat)
    (optimus : Nat) : StoreResult :=
  let r := asus_wmi_set_devstate k w w.asus_armoury.gpu_mux_dev_id optimus
  if r.err ≠ 0 then ⟨r.err, r.world⟩
  else if r.retval ≠ 1 then ⟨- EIO, r.world⟩
  else ⟨(count : Int), asus_set_reboot_and_signal_event (sysfs_notify r.world attr.name)⟩

/-- The part of `gpu_mux_mode_current_value_store` that starts at its eGPU check. -/
def gpu_mux_mode_check_egpu (ids : WmiIds) (k : Kernel) (w : World) (attr : kobj_attribute)
    (count : Nat) (optimus : Nat) : StoreResult :=
  let pe := asus_wmi_is_present ids k w ids.ASUS_WMI_DEVID_EGPU
  if pe.1 then
    let r := asus_wmi_get_devstate_dsts k pe.2 ids.ASUS_WMI_DEVID_EGPU
    if r.err ≠ 0 then ⟨r.err, r.world⟩
    else if r.retval ≠ 0 ∧ optimus = 0 then ⟨-ENODEV, r.world⟩
    else gpu_mux_mode_set k r.world attr count optimus
  else gpu_mux_mode_set k pe.2 attr count optimus

def gpu_mux_mode_current_value_store (ids : WmiIds) (k : Kernel) (w : World)
    (attr : kobj_attribute) (buf : String) (count : Nat) : StoreResult :=
  let p := kstrtou32 k buf 10
  if p.err ≠ 0 then ⟨p.err, w⟩
  else if p.value > 1 then ⟨-EINVAL, w⟩
  else
    let pd := asus_wmi_is_present ids k w ids.ASUS_WMI_DEVID_DGPU
    if pd.1 then
      let r := asus_wmi_get_devstate_dsts k pd.2 ids.ASUS_WMI_DEVID_DGPU
      if r.err ≠ 0 then ⟨r.err, r.world⟩
      else if r.retval ≠ 0 ∧ p.value = 0 then ⟨-ENODEV, r.world⟩
      else gpu_mux_mode_check_egpu ids k r.world attr count p.value
    else gpu_mux_mode_check_egpu ids k pd.2 attr count p.value

/-! ### dGPU disable, eGPU enable -/

/-- The end of `dgpu_disable_current_value_store`, from its `asus_wmi_set_devstate` call on. -/
def dgpu_disable_set (ids : WmiIds) (k : Kernel) (w : World) (attr : kobj_attribute)
    (count : Nat) (disable : Nat) : StoreResult :=
  let r := asus_wmi_set_devstate k w ids.ASUS_WMI_DEVID_DGPU disable
  if r.err ≠ 0 then ⟨r.err, r.world⟩
  else if r.retval ≠ 1 then ⟨- EIO, r.world⟩
  else ⟨(count : Int), sysfs_notify r.world attr.name⟩

def dgpu_disable_current_value_store (ids : WmiIds) (k : Kernel) (w : World)
    (attr : kobj_attribute) (buf : String) (count : Nat) : StoreResult :=
  let p := kstrtou32 k buf 10
  if p.err ≠ 0 then ⟨p.err, w⟩
  else if p.value > 1 then ⟨-EINVAL, w⟩
  else if w.asus_armoury.gpu_mux_dev_id ≠ 0 then
    let r := asus_wmi_get_devstate_dsts k w w.asus_armoury.gpu_mux_dev_id
    if r.err ≠ 0 then ⟨r.err, r.world⟩
    else if r.retval = 0 ∧ p.value ≠ 0 then ⟨-ENODEV, r.world⟩
    else dgpu_disable_set ids k r.world attr count p.value
  else dgpu_disable_set ids k w attr count p.value

/-- The end of `egpu_enable_current_value_store`, from its `asus_wmi_set_devstate` call on. -/
def egpu_enable_set (ids : WmiIds) (k : Kernel) (w : World) (attr : kobj_attribute)
    (count : Nat) (enable : Nat) : StoreResult :=
  let r := asus_wmi_set_devstate k w ids.ASUS_WMI_DEVID_EGPU enable
  if r.err ≠ 0 then ⟨r.err, r.world⟩
  else if r.retval ≠ 1 then ⟨- EIO, r.world⟩
  else ⟨(count : Int), sysfs_notify r.world attr.name⟩

def egpu_enable_current_value_store (ids : WmiIds) (k : Kernel) (w : World)
    (attr : kobj_attribute) (buf : String) (count : Nat) : StoreResult :=
  let p := kstrtou32 k buf 10
  if p.err ≠ 0 then ⟨p.err, w⟩
  else if p.value > 1 then ⟨-EINVAL, w⟩
  else
    let c := asus_wmi_get_devstate_dsts k w ids.ASUS_WMI_DEVID_EGPU_CONNECTED
    if c.err ≠ 0 then ⟨c.err, c.world⟩
    else if w.asus_armoury.gpu_mux_dev_id ≠ 0 then
      let r := asus_wmi_get_devstate_dsts k c.world w.asus_armoury.gpu_mux_dev_id
      if r.err ≠ 0 then ⟨s32 r.retval, r.world⟩
      else if r.retval = 0 ∧ p.value ≠ 0 then ⟨-ENODEV, r.world⟩
      else egpu_enable_set ids k r.world attr count p.value
    else egpu_enable_set ids k c.world attr count p.value

/-! ### Attribute registration and device-id probing -/

/-- The table `armoury_attr_groups`: sysfs name of each group and the device it needs. -/
def armoury_attr_groups (ids : WmiIds) : List (String × Nat) :=
  [ ("egpu_connected", ids.ASUS_WMI_DEVID_EGPU_CONNECTED),
    ("egpu_enable", ids.ASUS_WMI_DEVID_EGPU),
    ("dgpu_disable", ids.ASUS_WMI_DEVID_DGPU),
    ("ppt_pl1_spl", ids.ASUS_WMI_DEVID_PPT_PL1_SPL),
    ("ppt_pl2_sppt", ids.ASUS_WMI_DEVID_PPT_PL2_SPPT),
    ("ppt_apu_sppt", ids.ASUS_WMI_DEVID_PPT_APU_SPPT),
    ("ppt_platform_sppt", ids.ASUS_WMI_DEVID_PPT_PLAT_SPPT),
    ("ppt_fppt", ids.ASUS_WMI_DEVID_PPT_FPPT),
    ("nv_dynamic_boost", ids.ASUS_WMI_DEVID_NV_DYN_BOOST),
    ("nv_temp_target", ids.ASUS_WMI_DEVID_NV_THERM_TARGET),
    ("dgpu_base_tgp", ids.ASUS_WMI_DEVID_DGPU_BASE_TGP),
    ("dgpu_tgp", ids.ASUS_WMI_DEVID_DGPU_SET_TGP),
    ("charge_mode", ids.ASUS_WMI_DEVID_CHARGE_MODE),
    ("boot_sound", ids.ASUS_WMI_DEVID_BOOT_SOUND),
    ("mcu_powersave", ids.ASUS_WMI_DEVID_MCU_POWERSAVE),
    ("panel_overdrive", ids.ASUS_WMI_DEVID_PANEL_OD),
    ("panel_hd_mode", ids.ASUS_WMI_DEVID_PANEL_HD) ]

/-- The `for` loop of `asus_fw_attr_add` over the remaining entries of the table. -/
def asus_fw_attr_add_groups (ids : WmiIds) (k : Kernel) : World → List (String × Nat) → World
  | w, [] => w
  | w, g :: rest =>
    if g.2 = ids.ASUS_WMI_DEVID_MCU_POWERSAVE ∧ k.dmi_check_system_rog_ally = true then
      asus_fw_attr_add_groups ids k w rest
    else
      let p := asus_wmi_is_present ids k w g.2
      if p.1 = false then asus_fw_attr_add_groups ids k p.2 rest
      else asus_fw_attr_add_groups ids k (sysfs_create_group k p.2 g.1).2 rest

/-- The mini-LED probe of `asus_fw_attr_add`. -/
def asus_fw_attr_add_mini_led (ids : WmiIds) (k : Kernel) (w : World) : World :=
  let w0 := { w with asus_armoury := { w.asus_armoury with mini_led_dev_id := 0 } }
  let p1 := asus_wmi_is_present ids k w0 ids.ASUS_WMI_DEVID_MINI_LED_MODE
  if p1.1 then
    let w1 := { p1.2 with asus_armoury :=
      { p1.2.asus_armoury with mini_led_dev_id := ids.ASUS_WMI_DEVID_MINI_LED_MODE } }
    (sysfs_create_group k w1 "mini_led_mode").2
  else
    let p2 := asus_wmi_is_present ids k p1.2 ids.ASUS_WMI_DEVID_MINI_LED_MODE2
    if p2.1 then
      let w2 := { p2.2 with asus_armoury :=
        { p2.2.asus_armoury with mini_led_dev_id := ids.ASUS_WMI_DEVID_MINI_LED_MODE2 } }
      (sysfs_create_group k w2 "mini_led_mode").2
    else p2.2

/-- The GPU MUX probe of `asus_fw_attr_add`. -/
def asus_fw_attr_add_gpu_mux (ids : WmiIds) (k : Kernel) (w : World) : World :=
  let w0 := { w with asus_armoury := { w.asus_armoury with gpu_mux_dev_id := 0 } }
  let p1 := asus_wmi_is_present ids k w0 ids.ASUS_WMI_DEVID_GPU_MUX
  if p1.1 then
    let w1 := { p1.2 with asus_armoury :=
      { p1.2.asus_armoury with gpu_mux_dev_id := ids.ASUS_WMI_DEVID_GPU_MUX } }
    (sysfs_create_group k w1 "gpu_mux_mode").2
  else
    let p2 := asus_wmi_is_present ids k p1.2 ids.ASUS_WMI_DEVID_GPU_MUX_VIVO
    if p2.1 then
      let w2 := { p2.2 with asus_armoury :=
        { p2.2.asus_armoury with gpu_mux_dev_id := ids.ASUS_WMI_DEVID_GPU_MUX_VIVO } }
      (sysfs_create_group k w2 "gpu_mux_mode").2
    else p2.2

def asus_fw_attr_add (ids : WmiIds) (k : Kernel) (w : World) : StoreResult :=
  if k.fw_attributes_class_get ≠ 0 then ⟨k.fw_attributes_class_get, w⟩
  else
    match k.device_create with
    | .err_ptr e => ⟨e, w⟩
    | .null => ⟨-ENOMEM, w⟩
    | .valid =>
      if k.sysfs_create_file ≠ 0 then ⟨k.sysfs_create_file, w⟩
      else
        let w1 := asus_fw_attr_add_mini_led ids k w
        let w2 := asus_fw_attr_add_gpu_mux ids k w1
        ⟨0, asus_fw_attr_add_groups ids k w2 (armoury_attr_groups ids)⟩

/-! ### Init -/

/-- The all-zero `struct rog_tunables` that `kzalloc` hands out. -/
def rog_tunables_zero : rog_tunables :=
  ⟨0, 0, 0, 0, 0, 0, 0, 0, 0, 0, 0, 0, 0, 0, 0, 0, 0, 0, 0, 0, 0, 0, 0⟩

/-- The first `if` chain of `init_rog_tunables`: `(cpu_default, cpu_max)` for a product. -/
def init_rog_tunables_cpu (product : List Char) : Nat × Nat :=
  if strstr product "GA402R".toList then (125, PPT_CPU_LIMIT_MAX)
  else if strstr product "13QY".toList then (PPT_CPU_LIMIT_DEFAULT, 250)
  else if strstr product "X13".toList then (50, 75)
  else if strstr product "RC71".toList || strstr product "RC72".toList then (30, 50)
  else if strstr product "G814".toList || strstr product "G614".toList
      || strstr product "G834".toList || strstr product "G634".toList then
    (PPT_CPU_LIMIT_DEFAULT, 175)
  else if strstr product "GA402X".toList || strstr product "GA403".toList
      || strstr product "FA507N".toList || strstr product "FA507X".toList
      || strstr product "FA707N".toList || strstr product "FA707X".toList then
    (PPT_CPU_LIMIT_DEFAULT, 90)
  else (PPT_CPU_LIMIT_DEFAULT, PPT_CPU_LIMIT_MAX)

/-- The second `if` chain of `init_rog_tunables`: `max_boost` for a product. -/
def init_rog_tunables_max_boost (product : List Char) : Nat :=
  if strstr product "GZ301ZE".toList then 5
  else if strstr product "FX507ZC4".toList then 15
  else if strstr product "GU605".toList then 20
  else NVIDIA_BOOST_MAX

def init_rog_tunables (k : Kernel) (rog : rog_tunables) : rog_tunables :=
  let product := k.dmi_product_name.toList
  let cpu_default := (init_rog_tunables_cpu product).1
  let cpu_max := (init_rog_tunables_cpu product).2
  let platform_default := PPT_PLATFORM_DEFAULT
  let platform_max := PPT_PLATFORM_MAX
  let max_boost := init_rog_tunables_max_boost product
  let rog : rog_tunables := { rog with cpu_default := cpu_default }
  let rog : rog_tunables := { rog with cpu_min := PPT_CPU_LIMIT_MIN }
  let rog : rog_tunables := { rog with cpu_max := cpu_max }
  let rog : rog_tunables := { rog with platform_default := platform_default }
  let rog : rog_tunables := { rog with platform_max := PPT_PLATFORM_MIN }
  let rog : rog_tunables := { rog with platform_max := platform_max }
  let rog : rog_tunables := { rog with ppt_pl1_spl := cpu_default }
  let rog : rog_tunables := { rog with ppt_pl2_sppt := cpu_default }
  let rog : rog_tunables := { rog with ppt_apu_sppt := cpu_default }
  let rog : rog_tunables := { rog with ppt_platform_sppt := platform_default }
  let rog : rog_tunables := { rog with ppt_fppt := cpu_default }
  let rog : rog_tunables := { rog with nv_boost_default := NVIDIA_BOOST_MAX }
  let rog : rog_tunables := { rog with nv_boost_max := NVIDIA_BOOST_MIN }
  let rog : rog_tunables := { rog with nv_boost_max := max_boost }
  let rog : rog_tunables := { rog with nv_dynamic_boost := NVIDIA_BOOST_MIN }
  let rog : rog_tunables := { rog with nv_temp_default := NVIDIA_TEMP_MAX }
  let rog : rog_tunables := { rog with nv_temp_max := NVIDIA_TEMP_MIN }
  let rog : rog_tunables := { rog with nv_temp_max := NVIDIA_TEMP_MAX }
  let rog : rog_tunables := { rog with nv_temp_target := NVIDIA_TEMP_MIN }
  let rog : rog_tunables := { rog with dgpu_tgp_default := NVIDIA_POWER_DEFAULT }
  let rog : rog_tunables := { rog with dgpu_tgp_min := NVIDIA_POWER_MIN }
  let rog : rog_tunables := { rog with dgpu_tgp_max := NVIDIA_POWER_MAX }
  let rog : rog_tunables := { rog with dgpu_tgp := NVIDIA_POWER_MAX }
  rog

def asus_fw_init (ids : WmiIds) (k : Kernel) (w : World) : StoreResult :=
  let w0 := { w with fw_attrs := { w.fw_attrs with pending_reboot := false } }
  if k.kzalloc_ok = false then
    ⟨-ENOMEM, { w0 with asus_armoury := { w0.asus_armoury with rog_tunables := none } }⟩
  else
    let w1 := { w0 with asus_armoury :=
      { w0.asus_armoury with rog_tunables := some (init_rog_tunables k rog_tunables_zero) } }
    asus_fw_attr_add ids k w1

/-! ## Example instantiation -/

/-- Example identifiers, patterned on the mainline WMI header; only the examples use them. -/
def mainline_ids : WmiIds where
  ASUS_WMI_METHODID_DSTS := 0x53545344
  ASUS_WMI_DSTS_PRESENCE_BIT := 0x00010000
  ASUS_WMI_DEVID_MINI_LED_MODE := 0x0005001E
  ASUS_WMI_DEVID_MINI_LED_MODE2 := 0x0005002E
  ASUS_WMI_DEVID_GPU_MUX := 0x00090016
  ASUS_WMI_DEVID_GPU_MUX_VIVO := 0x00090026
  ASUS_WMI_DEVID_DGPU := 0x00090020
  ASUS_WMI_DEVID_EGPU := 0x00090019
  ASUS_WMI_DEVID_EGPU_CONNECTED := 0x00090018
  ASUS_WMI_DEVID_PPT_PL1_SPL := 0x001200A3
  ASUS_WMI_DEVID_PPT_PL2_SPPT := 0x001200A0
  ASUS_WMI_DEVID_PPT_APU_SPPT := 0x001200B0
  ASUS_WMI_DEVID_PPT_PLAT_SPPT := 0x001200B1
  ASUS_WMI_DEVID_PPT_FPPT := 0x001200C1
  ASUS_WMI_DEVID_NV_DYN_BOOST := 0x001200C0
  ASUS_WMI_DEVID_NV_THERM_TARGET := 0x001200C2
  ASUS_WMI_DEVID_DGPU_BASE_TGP := 0x00120099
  ASUS_WMI_DEVID_DGPU_SET_TGP := 0x00120098
  ASUS_WMI_DEVID_CHARGE_MODE := 0x0012006C
  ASUS_WMI_DEVID_BOOT_SOUND := 0x00130022
  ASUS_WMI_DEVID_MCU_POWERSAVE := 0x001200E2
  ASUS_WMI_DEVID_PANEL_OD := 0x00050019
  ASUS_WMI_DEVID_PANEL_HD := 0x0005001C

/-- A decimal digit, or `none`. -/
def digit_value (c : Char) : Option Nat :=
  if '0' ≤ c ∧ c ≤ '9' then some (c.toNat - '0'.toNat) else none

/-- Value of a run of decimal digits read left to right, `none` on any other character. -/
def parse_digits : Nat → List Char → Option Nat
  | acc, [] => some acc
  | acc, c :: cs =>
    match digit_value c with
    | some d => parse_digits (acc * 10 + d) cs
    | none => none

/-- The buffer without one trailing newline. -/
def strip_newline : List Char → List Char
  | [] => []
  | [c] => if c = '\n' then [] else [c]
  | c :: cs => c :: strip_newline cs

/-- A base-10 parser for the examples: a non-empty run of digits, then an optional newline;
`-EINVAL` for anything else and `-ERANGE` for a value that does not fit 32 bits. -/
def example_kstrtouint (buf : String) (_base : Nat) : Parsed :=
  if strip_newline buf.toList = [] then ⟨-EINVAL, 0⟩
  else
    match parse_digits 0 (strip_newline buf.toList) with
    | some v => if v < 2 ^ 32 then ⟨0, v⟩ else ⟨-ERANGE, 0⟩
    | none => ⟨-EINVAL, 0⟩

/-- An initial world: nothing probed, nothing pending, no call made. -/
def example_world (mini_led_dev_id gpu_mux_dev_id : Nat) : World where
  asus_armoury := ⟨none, mini_led_dev_id, gpu_mux_dev_id⟩
  fw_attrs := ⟨false⟩
  calls := []
  notified := []
  uevents := 0
  groups := []

/-- An example kernel around a history-independent firmware `fw`. -/
def example_kernel (fw : WmiCall → WmiAnswer) : Kernel where
  kstrtouint := example_kstrtouint
  kstrtou32 := example_kstrtouint
  wmi := fun _ c => fw c
  fw_attributes_class_get := 0
  device_create := .valid
  sysfs_create_file := 0
  sysfs_create_group := fun _ => 0
  dmi_check_system_rog_ally := false
  dmi_product_name := "ROG Flow X16 GV601VV_GV601VV_00185149B"
  kzalloc_ok := true

/-- Firmware that accepts every write (result 1) and reports every device as present with
state 0. -/
def fw_accepting : WmiCall → WmiAnswer
  | .evaluate_method _ _ _ => ⟨0, 0x00010000⟩
  | .set_devstate _ _ => ⟨0, 1⟩
  | .get_devstate_dsts _ => ⟨0, 0⟩

/-- Firmware that answers every write with status 0 and result 0 ("failed"). -/
def fw_refusing : WmiCall → WmiAnswer
  | .evaluate_method _ _ _ => ⟨0, 0x00010000⟩
  | .set_devstate _ _ => ⟨0, 0⟩
  | .get_devstate_dsts _ => ⟨0, 0⟩

/-- Firmware of a 2024 mini-LED panel that is switched off: every state read gives wire value 2
under the presence bit. -/
def fw_mini_led_off : WmiCall → WmiAnswer
  | .evaluate_method _ _ _ => ⟨0, 0x00010000⟩
  | .set_devstate _ _ => ⟨0, 1⟩
  | .get_devstate_dsts _ => ⟨0, 0x00010002⟩

/-- Firmware on which the dGPU and the eGPU are present, the eGPU state reads as 1 (enabled),
and the read of the dGPU state fails with `-EIO`. -/
def fw_dgpu_read_fails : WmiCall → WmiAnswer
  | .evaluate_method _ _ _ => ⟨0, 0x00010000⟩
  | .set_devstate _ _ => ⟨0, 1⟩
  | .get_devstate_dsts d => if d = 0x00090020 then ⟨- EIO, 0⟩ else ⟨0, 1⟩

/-- Firmware on which every device is present and every state reads as 1: the dGPU is disabled. -/
def fw_dgpu_disabled : WmiCall → WmiAnswer
  | .evaluate_method _ _ _ => ⟨0, 0x00010000⟩
  | .set_devstate _ _ => ⟨0, 1⟩
  | .get_devstate_dsts _ => ⟨0, 1⟩

/-- Firmware of a 2024 laptop: only the second-generation mini-LED device and the Vivobook MUX
answer the presence query with the presence bit. -/
def fw_second_variants : WmiCall → WmiAnswer
  | .evaluate_method _ d _ => if d = 0x0005002E ∨ d = 0x00090026 then ⟨0, 0x00010001⟩ else ⟨0, 0⟩
  | .set_devstate _ _ => ⟨0, 1⟩
  | .get_devstate_dsts _ => ⟨0, 0⟩

/-! ## Helper lemmas -/

theorem set_devstate_calls_append (l₁ l₂ : List WmiCall) :
    set_devstate_calls (l₁ ++ l₂) = set_devstate_calls l₁ ++ set_devstate_calls l₂ := by
  induction l₁ with
  | nil => rfl
  | cons c cs ih => cases c <;> simp [set_devstate_calls, ih]

/-! ## attr_int_store -/

/-- C1: when the buffer parses as the u32 value `v` and `v < min` or `v > max`,
`attr_int_store` returns `-EINVAL`, the world is untouched (so the WMI call history and
`fw_attrs.pending_reboot` are as before, and no `asus_wmi_set_devstate` call was issued), and the
cell behind `store_value` keeps its content. -/
theorem attr_int_store_out_of_range (k : Kernel) (w : World) (attr : kobj_attribute)
    (buf : String) (count min max : Nat) (store_value : Option Nat) (wmi_dev v : Nat)
    (hparse : kstrtouint k buf 10 = ⟨0, v⟩) (hrange : v < min ∨ v > max) :
    (attr_int_store k w attr buf count min max store_value wmi_dev).ret = -EINVAL ∧
    (attr_int_store k w attr buf count min max store_value wmi_dev).world = w ∧
    set_devstate_calls (attr_int_store k w attr buf count min max store_value wmi_dev).world.calls
      = set_devstate_calls w.calls ∧
    (attr_int_store k w attr buf count min max store_value wmi_dev).store_value = store_value ∧
    (attr_int_store k w attr buf count min max store_value wmi_dev).world.fw_attrs.pending_reboot
      = w.fw_attrs.pending_reboot := by
  have h : attr_int_store k w attr buf count min max store_value wmi_dev
      = ⟨-EINVAL, store_value, w⟩ := by
    unfold attr_int_store
    simp only [hparse]
    simp [hrange]
  rw [h]
  simp

theorem attr_int_store_out_of_range_witness :
    kstrtouint (example_kernel fw_accepting) "200\n" 10 = ⟨0, 200⟩ ∧ (200 < 5 ∨ 200 > 150) ∧
    (attr_int_store (example_kernel fw_accepting) (example_world 0 0) ⟨"ppt_pl1_spl"⟩
      "200\n" 4 5 150 (some 80) 0x001200A3).ret = -EINVAL ∧
    (attr_int_store (example_kernel fw_accepting) (example_world 0 0) ⟨"ppt_pl1_spl"⟩
      "200\n" 4 5 150 (some 80) 0x001200A3).store_value = some 80 :=
  have h := attr_int_store_out_of_range (example_kernel fw_accepting) (example_world 0 0)
    ⟨"ppt_pl1_spl"⟩ "200\n" 4 5 150 (some 80) 0x001200A3 200 (by decide) (by decide)
  ⟨by decide, by decide, h.1, h.2.2.2.1⟩

/-- C2: when the parsed value `v` is in range and `asus_wmi_set_devstate` returns status 0 with a
result other than 1, `attr_int_store` returns `-EIO`, the cell behind `store_value` keeps its
content and `fw_attrs.pending_reboot` keeps its value. -/
theorem attr_int_store_result_not_one (k : Kernel) (w : World) (attr : kobj_attribute)
    (buf : String) (count min max : Nat) (store_value : Option Nat) (wmi_dev v : Nat)
    (hparse : kstrtouint k buf 10 = ⟨0, v⟩) (hmin : min ≤ v) (hmax : v ≤ max)
    (herr : (asus_wmi_set_devstate k w wmi_dev v).err = 0)
    (hres : (asus_wmi_set_devstate k w wmi_dev v).retval ≠ 1) :
    (attr_int_store k w attr buf count min max store_value wmi_dev).ret = - EIO ∧
    (attr_int_store k w attr buf count min max store_value wmi_dev).store_value = store_value ∧
    (attr_int_store k w attr buf count min max store_value wmi_dev).world.fw_attrs.pending_reboot
      = w.fw_attrs.pending_reboot := by
  have h : attr_int_store k w attr buf count min max store_value wmi_dev
      = ⟨- EIO, store_value, (asus_wmi_set_devstate k w wmi_dev v).world⟩ := by
    unfold attr_int_store
    simp only [hparse]
    simp [herr, hres, Nat.not_lt.mpr hmin, Nat.not_lt.mpr hmax]
  rw [h]
  exact ⟨rfl, rfl, rfl⟩

theorem attr_int_store_result_not_one_witness :
    (attr_int_store (example_kernel fw_refusing) (example_world 0 0) ⟨"panel_hd_mode"⟩
      "1\n" 2 0 1 (some 0) 0x0005001C).ret = - EIO ∧
    (attr_int_store (example_kernel fw_refusing) (example_world 0 0) ⟨"panel_hd_mode"⟩
      "1\n" 2 0 1 (some 0) 0x0005001C).store_value = some 0 ∧
    (attr_int_store (example_kernel fw_refusing) (example_world 0 0) ⟨"panel_hd_mode"⟩
      "1\n" 2 0 1 (some 0) 0x0005001C).world.fw_attrs.pending_reboot = false :=
  attr_int_store_result_not_one (example_kernel fw_refusing) (example_world 0 0)
    ⟨"panel_hd_mode"⟩ "1\n" 2 0 1 (some 0) 0x0005001C 1 (by decide) (by decide) (by decide)
    (by decide) (by decide)

/-- C3: `attr_int_store` returns `count` or an error.  When the buffer parses, the value is
within `[min, max]`, `asus_wmi_set_devstate` returns status 0 and the firmware result is 1, it
returns `count` and a non-NULL `store_value` holds the parsed value afterwards (a NULL one stays
NULL).  In every other case it returns the status of the first failing step (the parser's
status, `-EINVAL` for the range, the WMI status, `-EIO` for the result) and the cell behind
`store_value` is unchanged.  With a kernel that reports failures as non-positive statuses, so
that no error equals `count`, it returns `count` exactly in the first case. -/
theorem attr_int_store_count_or_error (k : Kernel) (w : World) (attr : kobj_attribute)
    (buf : String) (count min max : Nat) (store_value : Option Nat) (wmi_dev : Nat) :
    ((kstrtouint k buf 10).err = 0 → min ≤ (kstrtouint k buf 10).value →
      (kstrtouint k buf 10).value ≤ max →
      (asus_wmi_set_devstate k w wmi_dev (kstrtouint k buf 10).value).err = 0 →
      (asus_wmi_set_devstate k w wmi_dev (kstrtouint k buf 10).value).retval = 1 →
      (attr_int_store k w attr buf count min max store_value wmi_dev).ret = (count : Int) ∧
      (store_value = none →
        (attr_int_store k w attr buf count min max store_value wmi_dev).store_value = none) ∧
      (store_value ≠ none →
        (attr_int_store k w attr buf count min max store_value wmi_dev).store_value
          = some (kstrtouint k buf 10).value)) ∧
    ((kstrtouint k buf 10).err ≠ 0 →
      (attr_int_store k w attr buf count min max store_value wmi_dev).ret
        = (kstrtouint k buf 10).err ∧
      (attr_int_store k w attr buf count min max store_value wmi_dev).store_value
        = store_value) ∧
    ((kstrtouint k buf 10).err = 0 →
      ((kstrtouint k buf 10).value < min ∨ (kstrtouint k buf 10).value > max) →
      (attr_int_store k w attr buf count min max store_value wmi_dev).ret = -EINVAL ∧
      (attr_int_store k w attr buf count min max store_value wmi_dev).store_value
        = store_value) ∧
    ((kstrtouint k buf 10).err = 0 → min ≤ (kstrtouint k buf 10).value →
      (kstrtouint k buf 10).value ≤ max →
      (asus_wmi_set_devstate k w wmi_dev (kstrtouint k buf 10).value).err ≠ 0 →
      (attr_int_store k w attr buf count min max store_value wmi_dev).ret
        = (asus_wmi_set_devstate k w wmi_dev (kstrtouint k buf 10).value).err ∧
      (attr_int_store k w attr buf count min max store_value wmi_dev).store_value
        = store_value) ∧
    ((kstrtouint k buf 10).err = 0 → min ≤ (kstrtouint k buf 10).value →
      (kstrtouint k buf 10).value ≤ max →
      (asus_wmi_set_devstate k w wmi_dev (kstrtouint k buf 10).value).err = 0 →
      (asus_wmi_set_devstate k w wmi_dev (kstrtouint k buf 10).value).retval ≠ 1 →
      (attr_int_store k w attr buf count min max store_value wmi_dev).ret = - EIO ∧
      (attr_int_store k w attr buf count min max store_value wmi_dev).store_value
        = store_value) ∧
    ((kstrtouint k buf 10).err ≤ 0 →
      (asus_wmi_set_devstate k w wmi_dev (kstrtouint k buf 10).value).err ≤ 0 →
      ((attr_int_store k w attr buf count min max store_value wmi_dev).ret = (count : Int) ↔
        ((kstrtouint k buf 10).err = 0 ∧ min ≤ (kstrtouint k buf 10).value ∧
          (kstrtouint k buf 10).value ≤ max ∧
          (asus_wmi_set_devstate k w wmi_dev (kstrtouint k buf 10).value).err = 0 ∧
          (asus_wmi_set_devstate k w wmi_dev (kstrtouint k buf 10).value).retval = 1))) := by
  generalize hp : kstrtouint k buf 10 = p
  generalize hs : asus_wmi_set_devstate k w wmi_dev p.value = s
  have hcount : (0 : Int) ≤ (count : Int) := Int.ofNat_nonneg count
  have hE : -EINVAL ≠ (count : Int) := by unfold EINVAL; omega
  have hI : - EIO ≠ (count : Int) := by unfold EIO; omega
  unfold attr_int_store
  simp only [hp, hs]
  by_cases h1 : p.err = 0
  · by_cases h2 : p.value < min ∨ p.value > max
    · have h2a : ¬ (min ≤ p.value ∧ p.value ≤ max) := by omega
      simp [h1, h2, hE]
      omega
    · have h2a : min ≤ p.value ∧ p.value ≤ max := by omega
      by_cases h3 : s.err = 0
      · by_cases h4 : s.retval = 1
        · simp [h1, h2, h3, h4, h2a.1, h2a.2]
          cases store_value <;> simp
        · simp [h1, h2, h3, h4, hI]
      · simp [h1, h2, h3]
        omega
  · simp [h1]
    omega

theorem attr_int_store_count_or_error_witness :
    (kstrtouint (example_kernel fw_accepting) "90\n" 10).err ≤ 0 ∧
    (asus_wmi_set_devstate (example_kernel fw_accepting) (example_world 0 0) 0x001200A3
      (kstrtouint (example_kernel fw_accepting) "90\n" 10).value).err ≤ 0 ∧
    ((attr_int_store (example_kernel fw_accepting) (example_world 0 0) ⟨"ppt_pl1_spl"⟩
        "90\n" 3 5 150 (some 80) 0x001200A3).ret = ((3 : Nat) : Int) ↔
      ((kstrtouint (example_kernel fw_accepting) "90\n" 10).err = 0 ∧
        5 ≤ (kstrtouint (example_kernel fw_accepting) "90\n" 10).value ∧
        (kstrtouint (example_kernel fw_accepting) "90\n" 10).value ≤ 150 ∧
        (asus_wmi_set_devstate (example_kernel fw_accepting) (example_world 0 0) 0x001200A3
          (kstrtouint (example_kernel fw_accepting) "90\n" 10).value).err = 0 ∧
        (asus_wmi_set_devstate (example_kernel fw_accepting) (example_world 0 0) 0x001200A3
          (kstrtouint (example_kernel fw_accepting) "90\n" 10).value).retval = 1)) ∧
    (attr_int_store (example_kernel fw_accepting) (example_world 0 0) ⟨"ppt_pl1_spl"⟩
        "90\n" 3 5 150 (some 80) 0x001200A3).store_value = some 90 :=
  have h := attr_int_store_count_or_error (example_kernel fw_accepting) (example_world 0 0)
    ⟨"ppt_pl1_spl"⟩ "90\n" 3 5 150 (some 80) 0x001200A3
  ⟨by decide, by decide, h.2.2.2.2.2 (by decide) (by decide),
    (h.1 (by decide) (by decide) (by decide) (by decide) (by decide)).2.2 (by decide)⟩

/-! ## Mini-LED mode -/

/-- On a `MINI_LED_MODE2` device a store of user mode `m ≤ 2` issues exactly one WMI call, the
write of wire value `(m + 2) % 3`. -/
theorem mini_led_store_mode2_calls (ids : WmiIds) (k : Kernel) (w : World)
    (attr : kobj_attribute) (buf : String) (count m : Nat)
    (hne : ids.ASUS_WMI_DEVID_MINI_LED_MODE ≠ ids.ASUS_WMI_DEVID_MINI_LED_MODE2)
    (hdev : w.asus_armoury.mini_led_dev_id = ids.ASUS_WMI_DEVID_MINI_LED_MODE2)
    (hparse : kstrtou32 k buf 10 = ⟨0, m⟩) (hm : m ≤ 2) :
    (mini_led_mode_current_value_store ids k w attr buf count).world.calls
      = w.calls ++ [.set_devstate ids.ASUS_WMI_DEVID_MINI_LED_MODE2 ((m + 2) % 3)] := by
  unfold mini_led_mode_current_value_store
  simp only [hparse, hdev]
  have hne2 : ¬ ids.ASUS_WMI_DEVID_MINI_LED_MODE2 = ids.ASUS_WMI_DEVID_MINI_LED_MODE :=
    fun h => hne h.symm
  interval_cases m <;>
    simp [hne2, ASUS_MINI_LED_ON, ASUS_MINI_LED_OFF, ASUS_MINI_LED_STRONG_MODE,
      ASUS_MINI_LED_2024_OFF, ASUS_MINI_LED_2024_WEAK, ASUS_MINI_LED_2024_STRONG] <;>
    split_ifs <;> simp [asus_wmi_set_devstate, wmi_call, sysfs_notify]

/-- On a `MINI_LED_MODE2` device, when the state read succeeds and the masked value is the wire
value `wire ≤ 2`, the show prints `(wire + 1) % 3`. -/
theorem mini_led_show_mode2_buf (ids : WmiIds) (k : Kernel) (w : World) (wire : Nat)
    (hdev : w.asus_armoury.mini_led_dev_id = ids.ASUS_WMI_DEVID_MINI_LED_MODE2)
    (herr : (asus_wmi_get_devstate_dsts k w ids.ASUS_WMI_DEVID_MINI_LED_MODE2).err = 0)
    (hval : (asus_wmi_get_devstate_dsts k w ids.ASUS_WMI_DEVID_MINI_LED_MODE2).retval
      &&& ASUS_MINI_LED_MODE_MASK = wire) (hw : wire ≤ 2) :
    (mini_led_mode_current_value_show ids k w).buf = some (toString ((wire + 1) % 3) ++ "\n") := by
  unfold mini_led_mode_current_value_show
  simp only [hdev, herr, hval]
  interval_cases wire <;>
    simp [sysfs_emit, ASUS_MINI_LED_ON, ASUS_MINI_LED_OFF, ASUS_MINI_LED_STRONG_MODE,
      ASUS_MINI_LED_2024_OFF, ASUS_MINI_LED_2024_WEAK, ASUS_MINI_LED_2024_STRONG]

/-- C4: on a device whose `mini_led_dev_id` is `ASUS_WMI_DEVID_MINI_LED_MODE2` the store-side
and show-side remaps are mutually inverse on {0,1,2}.  For a user mode `m ≤ 2` the store writes
one wire value `wire ≤ 2`, and a show that reads a state whose masked value is `wire` prints `m`.
For a wire value `wire ≤ 2` the show prints some `m ≤ 2`, and a store of `m` writes `wire`.  In
particular user 0 is written as wire 2, and wire 2 is shown as 0. -/
theorem mini_led_mode2_remap_inverse (ids : WmiIds) (k : Kernel)
    (hne : ids.ASUS_WMI_DEVID_MINI_LED_MODE ≠ ids.ASUS_WMI_DEVID_MINI_LED_MODE2) :
    (∀ (w : World) (attr : kobj_attribute) (buf : String) (count m : Nat),
      w.asus_armoury.mini_led_dev_id = ids.ASUS_WMI_DEVID_MINI_LED_MODE2 →
      kstrtou32 k buf 10 = ⟨0, m⟩ → m ≤ 2 →
      ∃ wire, wire ≤ 2 ∧
        (mini_led_mode_current_value_store ids k w attr buf count).world.calls
          = w.calls ++ [.set_devstate ids.ASUS_WMI_DEVID_MINI_LED_MODE2 wire] ∧
        ∀ v : World, v.asus_armoury.mini_led_dev_id = ids.ASUS_WMI_DEVID_MINI_LED_MODE2 →
          (asus_wmi_get_devstate_dsts k v ids.ASUS_WMI_DEVID_MINI_LED_MODE2).err = 0 →
          (asus_wmi_get_devstate_dsts k v ids.ASUS_WMI_DEVID_MINI_LED_MODE2).retval
            &&& ASUS_MINI_LED_MODE_MASK = wire →
          (mini_led_mode_current_value_show ids k v).buf = some (toString m ++ "\n")) ∧
    (∀ (v : World) (wire : Nat),
      v.asus_armoury.mini_led_dev_id = ids.ASUS_WMI_DEVID_MINI_LED_MODE2 →
      (asus_wmi_get_devstate_dsts k v ids.ASUS_WMI_DEVID_MINI_LED_MODE2).err = 0 →
      (asus_wmi_get_devstate_dsts k v ids.ASUS_WMI_DEVID_MINI_LED_MODE2).retval
        &&& ASUS_MINI_LED_MODE_MASK = wire → wire ≤ 2 →
      ∃ m, m ≤ 2 ∧
        (mini_led_mode_current_value_show ids k v).buf = some (toString m ++ "\n") ∧
        ∀ (w : World) (attr : kobj_attribute) (buf : String) (count : Nat),
          w.asus_armoury.mini_led_dev_id = ids.ASUS_WMI_DEVID_MINI_LED_MODE2 →
          kstrtou32 k buf 10 = ⟨0, m⟩ →
          (mini_led_mode_current_value_store ids k w attr buf count).world.calls
            = w.calls ++ [.set_devstate ids.ASUS_WMI_DEVID_MINI_LED_MODE2 wire]) ∧
    (∀ (w : World) (attr : kobj_attribute) (buf : String) (count : Nat),
      w.asus_armoury.mini_led_dev_id = ids.ASUS_WMI_DEVID_MINI_LED_MODE2 →
      kstrtou32 k buf 10 = ⟨0, 0⟩ →
      (mini_led_mode_current_value_store ids k w attr buf count).world.calls
        = w.calls ++ [.set_devstate ids.ASUS_WMI_DEVID_MINI_LED_MODE2 2]) ∧
    (∀ v : World, v.asus_armoury.mini_led_dev_id = ids.ASUS_WMI_DEVID_MINI_LED_MODE2 →
      (asus_wmi_get_devstate_dsts k v ids.ASUS_WMI_DEVID_MINI_LED_MODE2).err = 0 →
      (asus_wmi_get_devstate_dsts k v ids.ASUS_WMI_DEVID_MINI_LED_MODE2).retval
        &&& ASUS_MINI_LED_MODE_MASK = 2 →
      (mini_led_mode_current_value_show ids k v).buf = some "0\n") := by
  refine ⟨?_, ?_, ?_, ?_⟩
  · intro w attr buf count m hdev hparse hm
    refine ⟨(m + 2) % 3, by omega,
      mini_led_store_mode2_calls ids k w attr buf count m hne hdev hparse hm, ?_⟩
    intro v hv herr hval
    have h := mini_led_show_mode2_buf ids k v ((m + 2) % 3) hv herr hval (by omega)
    have hm3 : ((m + 2) % 3 + 1) % 3 = m := by omega
    rw [hm3] at h
    exact h
  · intro v wire hv herr hval hw
    refine ⟨(wire + 1) % 3, by omega, mini_led_show_mode2_buf ids k v wire hv herr hval hw, ?_⟩
    intro w attr buf count hdev hparse
    have h := mini_led_store_mode2_calls ids k w attr buf count ((wire + 1) % 3) hne hdev hparse
      (by omega)
    have hw3 : ((wire + 1) % 3 + 2) % 3 = wire := by omega
    rw [hw3] at h
    exact h
  · intro w attr buf count hdev hparse
    exact mini_led_store_mode2_calls ids k w attr buf count 0 hne hdev hparse (by omega)
  · intro v hv herr hval
    exact mini_led_show_mode2_buf ids k v 2 hv herr hval (by omega)

theorem mini_led_mode2_remap_inverse_witness :
    mainline_ids.ASUS_WMI_DEVID_MINI_LED_MODE ≠ mainline_ids.ASUS_WMI_DEVID_MINI_LED_MODE2 ∧
    (mini_led_mode_current_value_store mainline_ids (example_kernel fw_mini_led_off)
        (example_world 0x0005002E 0) ⟨"current_value"⟩ "0\n" 2).world.calls
      = [] ++ [.set_devstate 0x0005002E 2] ∧
    (mini_led_mode_current_value_show mainline_ids (example_kernel fw_mini_led_off)
        (example_world 0x0005002E 0)).buf = some "0\n" :=
  have h := mini_led_mode2_remap_inverse mainline_ids (example_kernel fw_mini_led_off)
    (by decide)
  ⟨by decide,
    h.2.2.1 (example_world 0x0005002E 0) ⟨"current_value"⟩ "0\n" 2 (by decide) (by decide),
    h.2.2.2 (example_world 0x0005002E 0) (by decide) (by decide) (by decide)⟩

theorem append_singleton_ne_self {α : Type} (l : List α) (a : α) : l ++ [a] ≠ l := by
  intro h
  have := congrArg List.length h
  simp at this

/-- The world after a mini-LED store that got past the range checks has one more WMI call. -/
theorem mini_led_store_accepted_calls (ids : WmiIds) (k : Kernel) (w : World)
    (attr : kobj_attribute) (buf : String) (count mode : Nat)
    (hparse : kstrtou32 k buf 10 = ⟨0, mode⟩)
    (h1 : ¬ (w.asus_armoury.mini_led_dev_id = ids.ASUS_WMI_DEVID_MINI_LED_MODE ∧
      mode > ASUS_MINI_LED_ON))
    (h2 : ¬ (w.asus_armoury.mini_led_dev_id = ids.ASUS_WMI_DEVID_MINI_LED_MODE2 ∧
      mode > ASUS_MINI_LED_STRONG_MODE)) :
    ∃ c, (mini_led_mode_current_value_store ids k w attr buf count).world.calls
      = w.calls ++ [c] := by
  unfold mini_led_mode_current_value_store
  simp only [hparse, h1, h2]
  simp only [ne_eq, not_true_eq_false, if_false]
  split_ifs <;> exact ⟨_, rfl⟩

/-- C5: the mini-LED store accepts exactly the values listed by
`mini_led_mode_possible_values_show`.  With `mini_led_dev_id == ASUS_WMI_DEVID_MINI_LED_MODE`
the list is "0;1" and a parsed mode is rejected with `-EINVAL` before any firmware call (the
call history is unchanged) if and only if `mode > 1`; with `ASUS_WMI_DEVID_MINI_LED_MODE2` the
list is "0;1;2" and this happens if and only if `mode > 2`. -/
theorem mini_led_store_accepts_listed (ids : WmiIds) (k : Kernel) (w : World)
    (attr : kobj_attribute) (buf : String) (count mode : Nat)
    (hne : ids.ASUS_WMI_DEVID_MINI_LED_MODE ≠ ids.ASUS_WMI_DEVID_MINI_LED_MODE2)
    (hparse : kstrtou32 k buf 10 = ⟨0, mode⟩) :
    (w.asus_armoury.mini_led_dev_id = ids.ASUS_WMI_DEVID_MINI_LED_MODE →
      (mini_led_mode_possible_values_show ids w).buf = some "0;1\n" ∧
      (((mini_led_mode_current_value_store ids k w attr buf count).ret = -EINVAL ∧
          (mini_led_mode_current_value_store ids k w attr buf count).world.calls = w.calls)
        ↔ mode > 1)) ∧
    (w.asus_armoury.mini_led_dev_id = ids.ASUS_WMI_DEVID_MINI_LED_MODE2 →
      (mini_led_mode_possible_values_show ids w).buf = some "0;1;2\n" ∧
      (((mini_led_mode_current_value_store ids k w attr buf count).ret = -EINVAL ∧
          (mini_led_mode_current_value_store ids k w attr buf count).world.calls = w.calls)
        ↔ mode > 2)) := by
  have hne2 : ¬ ids.ASUS_WMI_DEVID_MINI_LED_MODE2 = ids.ASUS_WMI_DEVID_MINI_LED_MODE :=
    fun h => hne h.symm
  constructor
  · intro hdev
    refine ⟨by simp [mini_led_mode_possible_values_show, hdev, sysfs_emit], ?_⟩
    by_cases hm : mode > 1
    · have hs : mini_led_mode_current_value_store ids k w attr buf count = ⟨-EINVAL, w⟩ := by
        unfold mini_led_mode_current_value_store
        simp [hparse, hdev, ASUS_MINI_LED_ON, hm]
      simp [hs, hm]
    · obtain ⟨c, hc⟩ := mini_led_store_accepted_calls ids k w attr buf count mode hparse
        (by simp [ASUS_MINI_LED_ON]; omega) (by simp [hdev, hne])
      simp [hc, hm]
  · intro hdev
    refine ⟨by simp [mini_led_mode_possible_values_show, hdev, sysfs_emit, hne2], ?_⟩
    by_cases hm : mode > 2
    · have hs : mini_led_mode_current_value_store ids k w attr buf count = ⟨-EINVAL, w⟩ := by
        unfold mini_led_mode_current_value_store
        simp [hparse, hdev, hne2, ASUS_MINI_LED_STRONG_MODE, hm]
      simp [hs, hm]
    · obtain ⟨c, hc⟩ := mini_led_store_accepted_calls ids k w attr buf count mode hparse
        (by simp [hdev, hne2]) (by simp [ASUS_MINI_LED_STRONG_MODE]; omega)
      simp [hc, hm]

theorem mini_led_store_accepts_listed_witness :
    mainline_ids.ASUS_WMI_DEVID_MINI_LED_MODE ≠ mainline_ids.ASUS_WMI_DEVID_MINI_LED_MODE2 ∧
    kstrtou32 (example_kernel fw_accepting) "2\n" 10 = ⟨0, 2⟩ ∧
    (mini_led_mode_possible_values_show mainline_ids (example_world 0x0005001E 0)).buf
      = some "0;1\n" ∧
    (((mini_led_mode_current_value_store mainline_ids (example_kernel fw_accepting)
          (example_world 0x0005001E 0) ⟨"current_value"⟩ "2\n" 2).ret = -EINVAL ∧
        (mini_led_mode_current_value_store mainline_ids (example_kernel fw_accepting)
          (example_world 0x0005001E 0) ⟨"current_value"⟩ "2\n" 2).world.calls
          = (example_world 0x0005001E 0).calls) ↔ 2 > 1) :=
  ⟨by decide, by decide,
    (mini_led_store_accepts_listed mainline_ids (example_kernel fw_accepting)
      (example_world 0x0005001E 0) ⟨"current_value"⟩ "2\n" 2 2 (by decide) (by decide)).1
      (by decide)⟩

/-! ## dGPU disable and eGPU enable against the MUX -/

/-- C6: while the MUX is in dGPU mode the dGPU cannot be disabled and the eGPU cannot be
enabled.  With `gpu_mux_dev_id` non-zero and a store of value 1: when the MUX state read returns
status 0 and value 0, `dgpu_disable_current_value_store` returns `-ENODEV`, and so does
`egpu_enable_current_value_store` once its eGPU-connected read has returned status 0; neither
issues an `asus_wmi_set_devstate` call (the only WMI calls made are the state reads). -/
theorem gpu_stores_refused_in_dgpu_mode (ids : WmiIds) (k : Kernel) (w : World)
    (attr : kobj_attribute) (buf : String) (count : Nat)
    (hmux : w.asus_armoury.gpu_mux_dev_id ≠ 0)
    (hparse : kstrtou32 k buf 10 = ⟨0, 1⟩) :
    ((asus_wmi_get_devstate_dsts k w w.asus_armoury.gpu_mux_dev_id).err = 0 →
      (asus_wmi_get_devstate_dsts k w w.asus_armoury.gpu_mux_dev_id).retval = 0 →
      (dgpu_disable_current_value_store ids k w attr buf count).ret = -ENODEV ∧
      (dgpu_disable_current_value_store ids k w attr buf count).world.calls
        = w.calls ++ [.get_devstate_dsts w.asus_armoury.gpu_mux_dev_id] ∧
      set_devstate_calls (dgpu_disable_current_value_store ids k w attr buf count).world.calls
        = set_devstate_calls w.calls) ∧
    ((asus_wmi_get_devstate_dsts k w ids.ASUS_WMI_DEVID_EGPU_CONNECTED).err = 0 →
      (asus_wmi_get_devstate_dsts k
        (asus_wmi_get_devstate_dsts k w ids.ASUS_WMI_DEVID_EGPU_CONNECTED).world
        w.asus_armoury.gpu_mux_dev_id).err = 0 →
      (asus_wmi_get_devstate_dsts k
        (asus_wmi_get_devstate_dsts k w ids.ASUS_WMI_DEVID_EGPU_CONNECTED).world
        w.asus_armoury.gpu_mux_dev_id).retval = 0 →
      (egpu_enable_current_value_store ids k w attr buf count).ret = -ENODEV ∧
      (egpu_enable_current_value_store ids k w attr buf count).world.calls
        = w.calls ++ [.get_devstate_dsts ids.ASUS_WMI_DEVID_EGPU_CONNECTED,
            .get_devstate_dsts w.asus_armoury.gpu_mux_dev_id] ∧
      set_devstate_calls (egpu_enable_current_value_store ids k w attr buf count).world.calls
        = set_devstate_calls w.calls) := by
  constructor
  · intro herr hval
    have hs : dgpu_disable_current_value_store ids k w attr buf count
        = ⟨-ENODEV, (asus_wmi_get_devstate_dsts k w w.asus_armoury.gpu_mux_dev_id).world⟩ := by
      unfold dgpu_disable_current_value_store
      simp [hparse, hmux, herr, hval]
    rw [hs]
    simp [asus_wmi_get_devstate_dsts, wmi_call, set_devstate_calls_append, set_devstate_calls]
  · intro hconn herr hval
    have hs : egpu_enable_current_value_store ids k w attr buf count
        = ⟨-ENODEV, (asus_wmi_get_devstate_dsts k
            (asus_wmi_get_devstate_dsts k w ids.ASUS_WMI_DEVID_EGPU_CONNECTED).world
            w.asus_armoury.gpu_mux_dev_id).world⟩ := by
      unfold egpu_enable_current_value_store
      simp [hparse, hmux, hconn, herr, hval]
    rw [hs]
    simp [asus_wmi_get_devstate_dsts, wmi_call, set_devstate_calls_append, set_devstate_calls]

theorem gpu_stores_refused_in_dgpu_mode_witness :
    (example_world 0 0x00090016).asus_armoury.gpu_mux_dev_id ≠ 0 ∧
    kstrtou32 (example_kernel fw_accepting) "1\n" 10 = ⟨0, 1⟩ ∧
    (dgpu_disable_current_value_store mainline_ids (example_kernel fw_accepting)
      (example_world 0 0x00090016) ⟨"current_value"⟩ "1\n" 2).ret = -ENODEV ∧
    (egpu_enable_current_value_store mainline_ids (example_kernel fw_accepting)
      (example_world 0 0x00090016) ⟨"current_value"⟩ "1\n" 2).ret = -ENODEV :=
  have h := gpu_stores_refused_in_dgpu_mode mainline_ids (example_kernel fw_accepting)
    (example_world 0 0x00090016) ⟨"current_value"⟩ "1\n" 2 (by decide) (by decide)
  ⟨by decide, by decide, (h.1 (by decide) (by decide)).1,
    (h.2 (by decide) (by decide) (by decide)).1⟩

/-! ## GPU MUX mode against the dGPU and eGPU state -/

/-- C7, as stated, fails: the eGPU is present and its state reads successfully as non-zero
(whenever it is asked), the stored value is 0, and yet `gpu_mux_mode_current_value_store` returns
`-EIO` rather than `-ENODEV`, because the earlier read of the dGPU state failed. -/
theorem gpu_mux_store_egpu_enabled_returns_dgpu_error :
    kstrtou32 (example_kernel fw_dgpu_read_fails) "0\n" 10 = ⟨0, 0⟩ ∧
    (∀ v : World, (asus_wmi_is_present mainline_ids (example_kernel fw_dgpu_read_fails) v
      mainline_ids.ASUS_WMI_DEVID_EGPU).1 = true) ∧
    (∀ v : World, (asus_wmi_get_devstate_dsts (example_kernel fw_dgpu_read_fails) v
        mainline_ids.ASUS_WMI_DEVID_EGPU).err = 0 ∧
      (asus_wmi_get_devstate_dsts (example_kernel fw_dgpu_read_fails) v
        mainline_ids.ASUS_WMI_DEVID_EGPU).retval ≠ 0) ∧
    (gpu_mux_mode_current_value_store mainline_ids (example_kernel fw_dgpu_read_fails)
      (example_world 0 0x00090016) ⟨"current_value"⟩ "0\n" 2).ret = - EIO ∧
    (gpu_mux_mode_current_value_store mainline_ids (example_kernel fw_dgpu_read_fails)
      (example_world 0 0x00090016) ⟨"current_value"⟩ "0\n" 2).ret ≠ -ENODEV := by
  refine ⟨by decide, fun v => ?_, fun v => ?_, by decide, by decide⟩
  · simp [asus_wmi_is_present, asus_wmi_evaluate_method, wmi_call, example_kernel,
      fw_dgpu_read_fails, u32, mainline_ids]
  · simp [asus_wmi_get_devstate_dsts, wmi_call, example_kernel, fw_dgpu_read_fails, u32,
      mainline_ids]

/-- Every exit of the tail of the MUX store leaves exactly one more WMI call, the write. -/
theorem gpu_mux_mode_set_calls (k : Kernel) (w : World) (attr : kobj_attribute)
    (count optimus : Nat) :
    (gpu_mux_mode_set k w attr count optimus).world.calls
      = w.calls ++ [.set_devstate w.asus_armoury.gpu_mux_dev_id optimus] := by
  simp only [gpu_mux_mode_set]
  split_ifs <;> rfl

/-- With value 1 the eGPU check either falls through to the write or returns a read error. -/
theorem gpu_mux_mode_check_egpu_one (ids : WmiIds) (k : Kernel) (w : World)
    (attr : kobj_attribute) (count : Nat) :
    (∃ h, (gpu_mux_mode_check_egpu ids k w attr count 1).world.calls
        = h ++ [.set_devstate w.asus_armoury.gpu_mux_dev_id 1]) ∨
    (∃ (v : World) (d : Nat), (d = ids.ASUS_WMI_DEVID_DGPU ∨ d = ids.ASUS_WMI_DEVID_EGPU) ∧
      (asus_wmi_get_devstate_dsts k v d).err ≠ 0 ∧
      (gpu_mux_mode_check_egpu ids k w attr count 1).ret
        = (asus_wmi_get_devstate_dsts k v d).err) := by
  unfold gpu_mux_mode_check_egpu
  by_cases hp : (asus_wmi_is_present ids k w ids.ASUS_WMI_DEVID_EGPU).1 = true
  · by_cases he : (asus_wmi_get_devstate_dsts k
        (asus_wmi_is_present ids k w ids.ASUS_WMI_DEVID_EGPU).2 ids.ASUS_WMI_DEVID_EGPU).err = 0
    · left
      simp only [hp, he, if_true, ne_eq, not_true_eq_false, if_false, one_ne_zero,
        and_false]
      exact ⟨_, gpu_mux_mode_set_calls k _ attr count 1⟩
    · right
      refine ⟨_, _, Or.inr rfl, he, ?_⟩
      simp [hp, he]
  · left
    simp only [hp, Bool.false_eq_true, if_false]
    exact ⟨_, gpu_mux_mode_set_calls k _ attr count 1⟩

/-- C7, amended.  For a store of value 0: if the dGPU is present and its state reads
successfully as non-zero, or the dGPU check has passed (the dGPU is absent, or its state reads
successfully as zero) and the eGPU is present and its state reads successfully as non-zero, the
store returns `-ENODEV`, issues no `asus_wmi_set_devstate` call and leaves
`fw_attrs.pending_reboot` unchanged; if the dGPU is present and the read of its state fails, the
store returns the status of that read, again without an `asus_wmi_set_devstate` call and with
`fw_attrs.pending_reboot` unchanged.  A store of value 1 is never refused by the two checks:
either it reaches the `asus_wmi_set_devstate` call on `gpu_mux_dev_id`, or it returns the
non-zero status of a failed dGPU or eGPU state read. -/
theorem gpu_mux_store_refused_when_dgpu_off_or_egpu_on (ids : WmiIds) (k : Kernel) (w : World)
    (attr : kobj_attribute) (count : Nat) :
    (∀ buf : String, kstrtou32 k buf 10 = ⟨0, 0⟩ →
      ((asus_wmi_is_present ids k w ids.ASUS_WMI_DEVID_DGPU).1 = true →
        (asus_wmi_get_devstate_dsts k (asus_wmi_is_present ids k w ids.ASUS_WMI_DEVID_DGPU).2
          ids.ASUS_WMI_DEVID_DGPU).err = 0 →
        (asus_wmi_get_devstate_dsts k (asus_wmi_is_present ids k w ids.ASUS_WMI_DEVID_DGPU).2
          ids.ASUS_WMI_DEVID_DGPU).retval ≠ 0 →
        (gpu_mux_mode_current_value_store ids k w attr buf count).ret = -ENODEV ∧
        set_devstate_calls (gpu_mux_mode_current_value_store ids k w attr buf count).world.calls
          = set_devstate_calls w.calls ∧
        (gpu_mux_mode_current_value_store ids k w attr buf count).world.fw_attrs.pending_reboot
          = w.fw_attrs.pending_reboot) ∧
      (∀ w1 : World,
        (((asus_wmi_is_present ids k w ids.ASUS_WMI_DEVID_DGPU).1 = false ∧
            w1 = (asus_wmi_is_present ids k w ids.ASUS_WMI_DEVID_DGPU).2) ∨
          ((asus_wmi_is_present ids k w ids.ASUS_WMI_DEVID_DGPU).1 = true ∧
            (asus_wmi_get_devstate_dsts k (asus_wmi_is_present ids k w ids.ASUS_WMI_DEVID_DGPU).2
              ids.ASUS_WMI_DEVID_DGPU).err = 0 ∧
            (asus_wmi_get_devstate_dsts k (asus_wmi_is_present ids k w ids.ASUS_WMI_DEVID_DGPU).2
              ids.ASUS_WMI_DEVID_DGPU).retval = 0 ∧
            w1 = (asus_wmi_get_devstate_dsts k
              (asus_wmi_is_present ids k w ids.ASUS_WMI_DEVID_DGPU).2
              ids.ASUS_WMI_DEVID_DGPU).world)) →
        (asus_wmi_is_present ids k w1 ids.ASUS_WMI_DEVID_EGPU).1 = true →
        (asus_wmi_get_devstate_dsts k (asus_wmi_is_present ids k w1 ids.ASUS_WMI_DEVID_EGPU).2
          ids.ASUS_WMI_DEVID_EGPU).err = 0 →
        (asus_wmi_get_devstate_dsts k (asus_wmi_is_present ids k w1 ids.ASUS_WMI_DEVID_EGPU).2
          ids.ASUS_WMI_DEVID_EGPU).retval ≠ 0 →
        (gpu_mux_mode_current_value_store ids k w attr buf count).ret = -ENODEV ∧
        set_devstate_calls (gpu_mux_mode_current_value_store ids k w attr buf count).world.calls
          = set_devstate_calls w.calls ∧
        (gpu_mux_mode_current_value_store ids k w attr buf count).world.fw_attrs.pending_reboot
          = w.fw_attrs.pending_reboot) ∧
      ((asus_wmi_is_present ids k w ids.ASUS_WMI_DEVID_DGPU).1 = true →
        (asus_wmi_get_devstate_dsts k (asus_wmi_is_present ids k w ids.ASUS_WMI_DEVID_DGPU).2
          ids.ASUS_WMI_DEVID_DGPU).err ≠ 0 →
        (gpu_mux_mode_current_value_store ids k w attr buf count).ret
          = (asus_wmi_get_devstate_dsts k (asus_wmi_is_present ids k w ids.ASUS_WMI_DEVID_DGPU).2
              ids.ASUS_WMI_DEVID_DGPU).err ∧
        set_devstate_calls (gpu_mux_mode_current_value_store ids k w attr buf count).world.calls
          = set_devstate_calls w.calls ∧
        (gpu_mux_mode_current_value_store ids k w attr buf count).world.fw_attrs.pending_reboot
          = w.fw_attrs.pending_reboot)) ∧
    (∀ buf : String, kstrtou32 k buf 10 = ⟨0, 1⟩ →
      (∃ h, (gpu_mux_mode_current_value_store ids k w attr buf count).world.calls
          = h ++ [.set_devstate w.asus_armoury.gpu_mux_dev_id 1]) ∨
      (∃ (v : World) (d : Nat), (d = ids.ASUS_WMI_DEVID_DGPU ∨ d = ids.ASUS_WMI_DEVID_EGPU) ∧
        (asus_wmi_get_devstate_dsts k v d).err ≠ 0 ∧
        (gpu_mux_mode_current_value_store ids k w attr buf count).ret
          = (asus_wmi_get_devstate_dsts k v d).err)) := by
  constructor
  · intro buf hparse
    refine ⟨?_, ?_, ?_⟩
    · intro hp herr hval
      have hs : gpu_mux_mode_current_value_store ids k w attr buf count
          = ⟨-ENODEV, (asus_wmi_get_devstate_dsts k
              (asus_wmi_is_present ids k w ids.ASUS_WMI_DEVID_DGPU).2
              ids.ASUS_WMI_DEVID_DGPU).world⟩ := by
        unfold gpu_mux_mode_current_value_store
        simp [hparse, hp, herr, hval]
      rw [hs]
      simp [asus_wmi_is_present, asus_wmi_evaluate_method, asus_wmi_get_devstate_dsts, wmi_call,
        set_devstate_calls_append, set_devstate_calls]
    · intro w1 hw1 hp herr hval
      have hs : gpu_mux_mode_current_value_store ids k w attr buf count
          = ⟨-ENODEV, (asus_wmi_get_devstate_dsts k
              (asus_wmi_is_present ids k w1 ids.ASUS_WMI_DEVID_EGPU).2
              ids.ASUS_WMI_DEVID_EGPU).world⟩ := by
        unfold gpu_mux_mode_current_value_store
        rcases hw1 with ⟨hd, rfl⟩ | ⟨hd, hderr, hdval, rfl⟩
        · simp [hparse, hd, gpu_mux_mode_check_egpu, hp, herr, hval]
        · simp [hparse, hd, hderr, hdval, gpu_mux_mode_check_egpu, hp, herr, hval]
      rw [hs]
      rcases hw1 with ⟨_, rfl⟩ | ⟨_, _, _, rfl⟩ <;>
        simp [asus_wmi_is_present, asus_wmi_evaluate_method, asus_wmi_get_devstate_dsts,
          wmi_call, set_devstate_calls_append, set_devstate_calls]
    · intro hp herr
      have hs : gpu_mux_mode_current_value_store ids k w attr buf count
          = ⟨(asus_wmi_get_devstate_dsts k (asus_wmi_is_present ids k w ids.ASUS_WMI_DEVID_DGPU).2
              ids.ASUS_WMI_DEVID_DGPU).err, (asus_wmi_get_devstate_dsts k
              (asus_wmi_is_present ids k w ids.ASUS_WMI_DEVID_DGPU).2
              ids.ASUS_WMI_DEVID_DGPU).world⟩ := by
        unfold gpu_mux_mode_current_value_store
        simp [hparse, hp, herr]
      rw [hs]
      simp [asus_wmi_is_present, asus_wmi_evaluate_method, asus_wmi_get_devstate_dsts, wmi_call,
        set_devstate_calls_append, set_devstate_calls]
  · intro buf hparse
    unfold gpu_mux_mode_current_value_store
    simp only [hparse]
    by_cases hp : (asus_wmi_is_present ids k w ids.ASUS_WMI_DEVID_DGPU).1 = true
    · by_cases he : (asus_wmi_get_devstate_dsts k
          (asus_wmi_is_present ids k w ids.ASUS_WMI_DEVID_DGPU).2 ids.ASUS_WMI_DEVID_DGPU).err = 0
      · simp only [hp, he, if_true, ne_eq, not_true_eq_false, if_false, one_ne_zero,
          and_false, gt_iff_lt, lt_self_iff_false]
        exact gpu_mux_mode_check_egpu_one ids k _ attr count
      · right
        refine ⟨_, _, Or.inl rfl, he, ?_⟩
        simp [hp, he]
    · simp only [hp, Bool.false_eq_true, if_false, ne_eq, not_true_eq_false, gt_iff_lt,
        lt_self_iff_false]
      exact gpu_mux_mode_check_egpu_one ids k _ attr count

theorem gpu_mux_store_refused_when_dgpu_off_or_egpu_on_witness :
    kstrtou32 (example_kernel fw_dgpu_disabled) "0\n" 10 = ⟨0, 0⟩ ∧
    (asus_wmi_is_present mainline_ids (example_kernel fw_dgpu_disabled)
      (example_world 0 0x00090016) mainline_ids.ASUS_WMI_DEVID_DGPU).1 = true ∧
    (gpu_mux_mode_current_value_store mainline_ids (example_kernel fw_dgpu_disabled)
      (example_world 0 0x00090016) ⟨"current_value"⟩ "0\n" 2).ret = -ENODEV ∧
    (gpu_mux_mode_current_value_store mainline_ids (example_kernel fw_dgpu_disabled)
      (example_world 0 0x00090016) ⟨"current_value"⟩ "0\n" 2).world.fw_attrs.pending_reboot
      = false :=
  have h := ((gpu_mux_store_refused_when_dgpu_off_or_egpu_on mainline_ids
    (example_kernel fw_dgpu_disabled) (example_world 0 0x00090016) ⟨"current_value"⟩ 2).1
    "0\n" (by decide)).1 (by decide) (by decide) (by decide)
  ⟨by decide, by decide, h.1, h.2.2⟩

/-! ## init_rog_tunables -/

/-- C8 (what the code does): on the zero-initialised struct `init_rog_tunables` sets `cpu_min`
to `PPT_CPU_LIMIT_MIN` and `dgpu_tgp_min` to `NVIDIA_POWER_MIN`, but `platform_min`,
`nv_boost_min` and `nv_temp_min` are still 0 afterwards, not `PPT_PLATFORM_MIN` (5),
`NVIDIA_BOOST_MIN` (5) and `NVIDIA_TEMP_MIN` (75).  First the whole struct for the product
"ROG Flow X16 GV601VV_GV601VV_00185149B", then the min fields for every kernel, that is for
every product name. -/
theorem init_rog_tunables_min_fields :
    init_rog_tunables (example_kernel fw_accepting) rog_tunables_zero
      = { cpu_default := 80, cpu_min := 5, cpu_max := 150,
          platform_default := 80, platform_min := 0, platform_max := 100,
          ppt_pl1_spl := 80, ppt_pl2_sppt := 80, ppt_apu_sppt := 80,
          ppt_platform_sppt := 80, ppt_fppt := 80,
          nv_boost_default := 25, nv_boost_min := 0, nv_boost_max := 25, nv_dynamic_boost := 5,
          nv_temp_default := 87, nv_temp_min := 0, nv_temp_max := 87, nv_temp_target := 75,
          dgpu_tgp_default := 70, dgpu_tgp_min := 0, dgpu_tgp_max := 70, dgpu_tgp := 70 } ∧
    ∀ k : Kernel,
      (init_rog_tunables k rog_tunables_zero).cpu_min = PPT_CPU_LIMIT_MIN ∧
      (init_rog_tunables k rog_tunables_zero).dgpu_tgp_min = NVIDIA_POWER_MIN ∧
      (init_rog_tunables k rog_tunables_zero).platform_min = 0 ∧
      (init_rog_tunables k rog_tunables_zero).nv_boost_min = 0 ∧
      (init_rog_tunables k rog_tunables_zero).nv_temp_min = 0 ∧
      (init_rog_tunables k rog_tunables_zero).platform_min ≠ PPT_PLATFORM_MIN ∧
      (init_rog_tunables k rog_tunables_zero).nv_boost_min ≠ NVIDIA_BOOST_MIN ∧
      (init_rog_tunables k rog_tunables_zero).nv_temp_min ≠ NVIDIA_TEMP_MIN :=
  ⟨by decide, fun _ => ⟨rfl, rfl, rfl, rfl, rfl,
    (by decide : (0 : Nat) ≠ PPT_PLATFORM_MIN),
    (by decide : (0 : Nat) ≠ NVIDIA_BOOST_MIN),
    (by decide : (0 : Nat) ≠ NVIDIA_TEMP_MIN)⟩⟩

/-- The max and default fields after `init_rog_tunables` hold the configured limits. -/
theorem init_rog_tunables_max_default_fields (k : Kernel) (rog : rog_tunables) :
    (init_rog_tunables k rog).cpu_default = (init_rog_tunables_cpu k.dmi_product_name.toList).1 ∧
    (init_rog_tunables k rog).cpu_max = (init_rog_tunables_cpu k.dmi_product_name.toList).2 ∧
    (init_rog_tunables k rog).platform_default = PPT_PLATFORM_DEFAULT ∧
    (init_rog_tunables k rog).platform_max = PPT_PLATFORM_MAX ∧
    (init_rog_tunables k rog).nv_boost_default = NVIDIA_BOOST_MAX ∧
    (init_rog_tunables k rog).nv_boost_max
      = init_rog_tunables_max_boost k.dmi_product_name.toList ∧
    (init_rog_tunables k rog).nv_temp_default = NVIDIA_TEMP_MAX ∧
    (init_rog_tunables k rog).nv_temp_max = NVIDIA_TEMP_MAX ∧
    (init_rog_tunables k rog).dgpu_tgp_default = NVIDIA_POWER_DEFAULT ∧
    (init_rog_tunables k rog).dgpu_tgp_max = NVIDIA_POWER_MAX :=
  ⟨rfl, rfl, rfl, rfl, rfl, rfl, rfl, rfl, rfl, rfl⟩

/-! ## Device-id probing -/

theorem sysfs_create_group_asus_armoury (k : Kernel) (w : World) (name : String) :
    (sysfs_create_group k w name).2.asus_armoury = w.asus_armoury := by
  unfold sysfs_create_group
  split_ifs <;> rfl

/-- Whether a device is found present depends on the world only through the call history. -/
theorem asus_wmi_is_present_congr (ids : WmiIds) (k : Kernel) (v w : World) (dev_id : Nat)
    (h : v.calls = w.calls) :
    (asus_wmi_is_present ids k v dev_id).1 = (asus_wmi_is_present ids k w dev_id).1 := by
  simp [asus_wmi_is_present, asus_wmi_evaluate_method, wmi_call, h]

/-- The loop over `armoury_attr_groups` does not touch the driver's private data. -/
theorem asus_fw_attr_add_groups_asus_armoury (ids : WmiIds) (k : Kernel)
    (gs : List (String × Nat)) :
    ∀ w : World, (asus_fw_attr_add_groups ids k w gs).asus_armoury = w.asus_armoury := by
  induction gs with
  | nil => intro w; rfl
  | cons g rest ih =>
    intro w
    unfold asus_fw_attr_add_groups
    split
    · exact ih w
    · simp only []
      split
      · rw [ih]; rfl
      · rw [ih, sysfs_create_group_asus_armoury]; rfl

theorem asus_fw_attr_add_mini_led_id (ids : WmiIds) (k : Kernel) (w : World) :
    (asus_fw_attr_add_mini_led ids k w).asus_armoury.mini_led_dev_id
      = if (asus_wmi_is_present ids k w ids.ASUS_WMI_DEVID_MINI_LED_MODE).1 = true then
          ids.ASUS_WMI_DEVID_MINI_LED_MODE
        else if (asus_wmi_is_present ids k
            (asus_wmi_is_present ids k w ids.ASUS_WMI_DEVID_MINI_LED_MODE).2
            ids.ASUS_WMI_DEVID_MINI_LED_MODE2).1 = true then
          ids.ASUS_WMI_DEVID_MINI_LED_MODE2
        else 0 := by
  have e1 := asus_wmi_is_present_congr ids k
    { w with asus_armoury := { w.asus_armoury with mini_led_dev_id := 0 } } w
    ids.ASUS_WMI_DEVID_MINI_LED_MODE rfl
  have e2 := asus_wmi_is_present_congr ids k
    (asus_wmi_is_present ids k
      { w with asus_armoury := { w.asus_armoury with mini_led_dev_id := 0 } }
      ids.ASUS_WMI_DEVID_MINI_LED_MODE).2
    (asus_wmi_is_present ids k w ids.ASUS_WMI_DEVID_MINI_LED_MODE).2
    ids.ASUS_WMI_DEVID_MINI_LED_MODE2 rfl
  unfold asus_fw_attr_add_mini_led
  simp only [e1, e2]
  split_ifs <;>
    first
    | rfl
    | simp [sysfs_create_group_asus_armoury]

theorem asus_fw_attr_add_gpu_mux_id (ids : WmiIds) (k : Kernel) (w : World) :
    (asus_fw_attr_add_gpu_mux ids k w).asus_armoury.gpu_mux_dev_id
      = if (asus_wmi_is_present ids k w ids.ASUS_WMI_DEVID_GPU_MUX).1 = true then
          ids.ASUS_WMI_DEVID_GPU_MUX
        else if (asus_wmi_is_present ids k
            (asus_wmi_is_present ids k w ids.ASUS_WMI_DEVID_GPU_MUX).2
            ids.ASUS_WMI_DEVID_GPU_MUX_VIVO).1 = true then
          ids.ASUS_WMI_DEVID_GPU_MUX_VIVO
        else 0 := by
  have e1 := asus_wmi_is_present_congr ids k
    { w with asus_armoury := { w.asus_armoury with gpu_mux_dev_id := 0 } } w
    ids.ASUS_WMI_DEVID_GPU_MUX rfl
  have e2 := asus_wmi_is_present_congr ids k
    (asus_wmi_is_present ids k
      { w with asus_armoury := { w.asus_armoury with gpu_mux_dev_id := 0 } }
      ids.ASUS_WMI_DEVID_GPU_MUX).2
    (asus_wmi_is_present ids k w ids.ASUS_WMI_DEVID_GPU_MUX).2
    ids.ASUS_WMI_DEVID_GPU_MUX_VIVO rfl
  unfold asus_fw_attr_add_gpu_mux
  simp only [e1, e2]
  split_ifs <;>
    first
    | rfl
    | simp [sysfs_create_group_asus_armoury]

theorem asus_fw_attr_add_gpu_mux_keeps_mini_led (ids : WmiIds) (k : Kernel) (w : World) :
    (asus_fw_attr_add_gpu_mux ids k w).asus_armoury.mini_led_dev_id
      = w.asus_armoury.mini_led_dev_id := by
  unfold asus_fw_attr_add_gpu_mux
  simp only []
  split_ifs <;>
    first
    | rfl
    | (simp only [sysfs_create_group_asus_armoury]; rfl)

/-- C9: device-id probing in `asus_fw_attr_add` picks the first present variant.  Once the
class, device and `pending_reboot` file have been set up, the function returns 0 and leaves
`mini_led_dev_id` equal to `ASUS_WMI_DEVID_MINI_LED_MODE` if that device is present, otherwise
`ASUS_WMI_DEVID_MINI_LED_MODE2` if that one is present, otherwise 0, and `gpu_mux_dev_id` equal
to `ASUS_WMI_DEVID_GPU_MUX` if present, otherwise `ASUS_WMI_DEVID_GPU_MUX_VIVO` if present,
otherwise 0 (each presence check made on the world left by the checks before it).  A device is
present exactly when the DSTS call returns status 0 and the returned value has
`ASUS_WMI_DSTS_PRESENCE_BIT` set. -/
theorem asus_fw_attr_add_probe (ids : WmiIds) (k : Kernel) (w : World)
    (hclass : k.fw_attributes_class_get = 0) (hdev : k.device_create = .valid)
    (hfile : k.sysfs_create_file = 0) :
    (asus_fw_attr_add ids k w).ret = 0 ∧
    (asus_fw_attr_add ids k w).world.asus_armoury.mini_led_dev_id
      = (if (asus_wmi_is_present ids k w ids.ASUS_WMI_DEVID_MINI_LED_MODE).1 = true then
          ids.ASUS_WMI_DEVID_MINI_LED_MODE
        else if (asus_wmi_is_present ids k
            (asus_wmi_is_present ids k w ids.ASUS_WMI_DEVID_MINI_LED_MODE).2
            ids.ASUS_WMI_DEVID_MINI_LED_MODE2).1 = true then
          ids.ASUS_WMI_DEVID_MINI_LED_MODE2
        else 0) ∧
    (asus_fw_attr_add ids k w).world.asus_armoury.gpu_mux_dev_id
      = (if (asus_wmi_is_present ids k (asus_fw_attr_add_mini_led ids k w)
            ids.ASUS_WMI_DEVID_GPU_MUX).1 = true then
          ids.ASUS_WMI_DEVID_GPU_MUX
        else if (asus_wmi_is_present ids k
            (asus_wmi_is_present ids k (asus_fw_attr_add_mini_led ids k w)
              ids.ASUS_WMI_DEVID_GPU_MUX).2
            ids.ASUS_WMI_DEVID_GPU_MUX_VIVO).1 = true then
          ids.ASUS_WMI_DEVID_GPU_MUX_VIVO
        else 0) ∧
    (∀ (v : World) (dev_id : Nat),
      (asus_wmi_is_present ids k v dev_id).1 = true ↔
        ((asus_wmi_evaluate_method k v ids.ASUS_WMI_METHODID_DSTS dev_id 0).err = 0 ∧
          (asus_wmi_evaluate_method k v ids.ASUS_WMI_METHODID_DSTS dev_id 0).retval
            &&& ids.ASUS_WMI_DSTS_PRESENCE_BIT ≠ 0)) := by
  have hs : asus_fw_attr_add ids k w
      = ⟨0, asus_fw_attr_add_groups ids k
          (asus_fw_attr_add_gpu_mux ids k (asus_fw_attr_add_mini_led ids k w))
          (armoury_attr_groups ids)⟩ := by
    unfold asus_fw_attr_add
    simp [hclass, hdev, hfile]
  rw [hs]
  refine ⟨rfl, ?_, ?_, ?_⟩
  · simp only [asus_fw_attr_add_groups_asus_armoury, asus_fw_attr_add_gpu_mux_keeps_mini_led]
    exact asus_fw_attr_add_mini_led_id ids k w
  · simp only [asus_fw_attr_add_groups_asus_armoury]
    exact asus_fw_attr_add_gpu_mux_id ids k _
  · intro v dev_id
    simp [asus_wmi_is_present]

theorem asus_fw_attr_add_probe_witness :
    (example_kernel fw_second_variants).fw_attributes_class_get = 0 ∧
    (example_kernel fw_second_variants).device_create = .valid ∧
    (example_kernel fw_second_variants).sysfs_create_file = 0 ∧
    (asus_fw_attr_add mainline_ids (example_kernel fw_second_variants)
      (example_world 7 7)).world.asus_armoury.mini_led_dev_id = 0x0005002E ∧
    (asus_fw_attr_add mainline_ids (example_kernel fw_second_variants)
      (example_world 7 7)).world.asus_armoury.gpu_mux_dev_id = 0x00090026 :=
  have h := asus_fw_attr_add_probe mainline_ids (example_kernel fw_second_variants)
    (example_world 7 7) (by decide) (by decide) (by decide)
  ⟨by decide, by decide, by decide, h.2.1.trans (by decide), h.2.2.1.trans (by decide)⟩

end AsusArmoury
